import Mathlib

/-!
Shallow embedding of `src/auth.rs` from the trovo-rs repository.

The file transcribes the Rust declarations into Lean:
the `AccessToken` enum, the `ClientId` wrapper, the `AccessTokenOnly`
provider, and the `access_token!` macro expansion. All of the Rust
methods take `&self` and the types involved have no interior
mutability, so each method is a pure function of the receiver; to make
statements about "any number of prior calls" non-trivial we also model
each method as an explicit state-passing call returning the (unchanged)
receiver, and fold arbitrary call traces over that.
-/

namespace TrovoAuth

/-- Modelled from the spec: `AccessTokenExpired` is declared at the crate
root (`use crate::AccessTokenExpired;`), outside the provided sources.
The spec describes it as the single fixed "token expired" error kind
carrying no data, produced unconditionally by
`AccessTokenOnly::refresh_token`. -/
inductive AccessTokenExpired : Type
  | mk : AccessTokenExpired
  deriving DecidableEq, Repr

/-- Rust: `pub enum AccessToken { Token(String), NeedsRefresh }`. -/
inductive AccessToken : Type
  | Token (s : String)
  | NeedsRefresh
  deriving DecidableEq, Repr

/-- Rust: `impl From<String> for AccessToken`, whose body is
`Self::Token(token)`. -/
def AccessToken.fromString (token : String) : AccessToken :=
  AccessToken.Token token

/-- Rust: `pub struct ClientId(pub String);` — a tuple struct with one
public `String` field. -/
structure ClientId where
  val : String
  deriving DecidableEq, Repr

/-- Rust: `ClientId::new(client_id: impl Into<String>)`, whose body is
`Self(client_id.into())`. The `Into<String>` bound is modelled by taking
the `String` directly. -/
def ClientId.new (client_id : String) : ClientId :=
  ClientId.mk client_id

/-- Rust: `impl ClientIdProvider for ClientId`, whose `client_id` body is
`&self.0`. -/
def ClientId.client_id (c : ClientId) : String :=
  c.val

/-- Rust: `pub struct AccessTokenOnly { client_id: String, token: String }`.
The field projection `AccessTokenOnly.client_id` doubles as the
`ClientIdProvider` impl, whose body is `&self.client_id`. -/
structure AccessTokenOnly where
  client_id : String
  token : String
  deriving DecidableEq, Repr

/-- Rust: `AccessTokenOnly::new(client_id, access_token)`, whose body
builds the struct from the two (converted) strings. -/
def AccessTokenOnly.new (client_id access_token : String) : AccessTokenOnly :=
  AccessTokenOnly.mk client_id access_token

/-- Rust: `fn access_token(&self) -> AccessToken` for `AccessTokenOnly`,
whose body is `AccessToken::Token(self.token.clone())`. -/
def AccessTokenOnly.access_token (p : AccessTokenOnly) : AccessToken :=
  AccessToken.Token p.token

/-- Rust: `async fn refresh_token(&self) -> Result<String, Self::Error>`
for `AccessTokenOnly`, whose body is `Err(AccessTokenExpired)`. -/
def AccessTokenOnly.refresh_token (p : AccessTokenOnly) :
    Except AccessTokenExpired String :=
  Except.error AccessTokenExpired.mk

/-- A method call on an `AccessTokenOnly` receiver, for stating
properties over arbitrary call histories. -/
inductive Call : Type
  | accessToken
  | refreshToken
  deriving DecidableEq, Repr

/-- State-passing form of `access_token`: the result paired with the
receiver after the call. The method takes `&self` and `AccessTokenOnly`
has no interior mutability, so the receiver is returned unchanged. -/
def AccessTokenOnly.access_token_call (p : AccessTokenOnly) :
    AccessToken × AccessTokenOnly :=
  (p.access_token, p)

/-- State-passing form of `refresh_token`; the receiver is returned
unchanged for the same reason as in `access_token_call`. -/
def AccessTokenOnly.refresh_token_call (p : AccessTokenOnly) :
    Except AccessTokenExpired String × AccessTokenOnly :=
  (p.refresh_token, p)

/-- The receiver state after performing one method call. -/
def AccessTokenOnly.step (p : AccessTokenOnly) : Call → AccessTokenOnly
  | Call.accessToken => (p.access_token_call).snd
  | Call.refreshToken => (p.refresh_token_call).snd

/-- The receiver state after performing a sequence of method calls. -/
def AccessTokenOnly.runCalls (p : AccessTokenOnly) : List Call → AccessTokenOnly
  | [] => p
  | c :: cs => (p.step c).runCalls cs

/-- A provider as seen by the `access_token!` macro: the observable
behaviour of one invocation of each trait method of
`AccessTokenProvider` (which extends `ClientIdProvider`), with
associated error type `ε`. -/
structure Provider (ε : Type) where
  client_id : String
  access_token : AccessToken
  refresh_token : Except ε String

/-- The caller-supplied enclosing error type required by the
`access_token!` macro: it must declare a `RefreshToken` variant holding
the provider's associated error type. -/
inductive EnclosingError (ε : Type) : Type
  | RefreshToken (e : ε) : EnclosingError ε

/-- Expansion of the `access_token!` macro: match on
`$auth.access_token()`; a `Token(token)` arm yields `token`; the
`NeedsRefresh` arm awaits `$auth.refresh_token()` and applies
`.map_err($error_type::RefreshToken)?`. `wrapRefreshToken` stands for
the `$error_type::RefreshToken` variant constructor, and `?` propagation
is modelled by the `Except` result. The second component instruments the
expansion with the number of `refresh_token` invocations performed. -/
def access_token_expand {ε ε' : Type} (auth : Provider ε)
    (wrapRefreshToken : ε → ε') : Except ε' String × Nat :=
  match auth.access_token with
  | AccessToken.Token token => (Except.ok token, 0)
  | AccessToken.NeedsRefresh =>
    match auth.refresh_token with
    | Except.ok t => (Except.ok t, 1)
    | Except.error e => (Except.error (wrapRefreshToken e), 1)

/-- Any call trace leaves an `AccessTokenOnly` receiver unchanged. -/
theorem AccessTokenOnly.runCalls_eq_self (p : AccessTokenOnly) :
    ∀ cs : List Call, p.runCalls cs = p := by
  intro cs
  induction cs generalizing p with
  | nil => rfl
  | cons c cs ih =>
    cases c with
    | accessToken => exact ih p
    | refreshToken => exact ih p

/-- Claim C1: if the provider's `access_token()` returns `Token(t)`, the
`access_token!` expansion evaluates to `t` and performs zero
`refresh_token` invocations. -/
theorem expand_token_no_refresh {ε ε' : Type} (auth : Provider ε)
    (wrapRefreshToken : ε → ε') (t : String)
    (h : auth.access_token = AccessToken.Token t) :
    access_token_expand auth wrapRefreshToken = (Except.ok t, 0) := by
  unfold access_token_expand
  rw [h]

/-- Witness for C1 at a concrete provider holding token "tok". -/
theorem expand_token_no_refresh_witness :
    access_token_expand
      (Provider.mk "client-a" (AccessToken.Token "tok")
        (Except.error AccessTokenExpired.mk))
      (@EnclosingError.RefreshToken AccessTokenExpired)
      = (Except.ok "tok", 0) :=
  expand_token_no_refresh _ _ "tok" rfl

/-- Claim C2: if the provider's `access_token()` returns `NeedsRefresh`
and `refresh_token()` returns `Ok(t2)`, the `access_token!` expansion
evaluates to `t2` after exactly one `refresh_token` invocation. -/
theorem expand_refresh_success {ε ε' : Type} (auth : Provider ε)
    (wrapRefreshToken : ε → ε') (t2 : String)
    (h1 : auth.access_token = AccessToken.NeedsRefresh)
    (h2 : auth.refresh_token = Except.ok t2) :
    access_token_expand auth wrapRefreshToken = (Except.ok t2, 1) := by
  unfold access_token_expand
  rw [h1, h2]

/-- Witness for C2 at a concrete provider that needs refreshing and
refreshes to "tok2". -/
theorem expand_refresh_success_witness :
    access_token_expand
      (Provider.mk "client-b" AccessToken.NeedsRefresh
        (Except.ok "tok2" : Except AccessTokenExpired String))
      (@EnclosingError.RefreshToken AccessTokenExpired)
      = (Except.ok "tok2", 1) :=
  expand_refresh_success _ _ "tok2" rfl rfl

/-- Claim C3: if the provider's `access_token()` returns `NeedsRefresh`
and `refresh_token()` returns `Err(e)`, the `access_token!` expansion
propagates the enclosing error type's `RefreshToken` variant wrapping
exactly `e`, after one refresh invocation. -/
theorem expand_refresh_failure {ε : Type} (auth : Provider ε) (e : ε)
    (h1 : auth.access_token = AccessToken.NeedsRefresh)
    (h2 : auth.refresh_token = Except.error e) :
    access_token_expand auth (@EnclosingError.RefreshToken ε)
      = (Except.error (EnclosingError.RefreshToken e), 1) := by
  unfold access_token_expand
  rw [h1, h2]

/-- Witness for C3 at a concrete provider whose refresh fails with the
fixed `AccessTokenExpired` error. -/
theorem expand_refresh_failure_witness :
    access_token_expand
      (Provider.mk "client-c" AccessToken.NeedsRefresh
        (Except.error AccessTokenExpired.mk : Except AccessTokenExpired String))
      (@EnclosingError.RefreshToken AccessTokenExpired)
      = (Except.error (EnclosingError.RefreshToken AccessTokenExpired.mk), 1) :=
  expand_refresh_failure _ AccessTokenExpired.mk rfl rfl

/-- Claim C4: for every client id `c` and token `t`, an `AccessTokenOnly`
built by `new c t` answers `Token t` from `access_token()` after any
sequence of prior `access_token`/`refresh_token` calls, and never
answers `NeedsRefresh`. -/
theorem accessTokenOnly_always_token (c t : String) (cs : List Call) :
    (((AccessTokenOnly.new c t).runCalls cs).access_token_call).fst
        = AccessToken.Token t
    ∧ (((AccessTokenOnly.new c t).runCalls cs).access_token_call).fst
        ≠ AccessToken.NeedsRefresh := by
  rw [AccessTokenOnly.runCalls_eq_self]
  exact ⟨rfl, by simp [AccessTokenOnly.access_token_call,
    AccessTokenOnly.access_token, AccessTokenOnly.new]⟩

/-- Claim C5: `AccessTokenOnly.refresh_token` returns the fixed
`AccessTokenExpired` error regardless of construction arguments and of
any prior sequence of calls. -/
theorem accessTokenOnly_refresh_always_fails (c t : String) (cs : List Call) :
    (((AccessTokenOnly.new c t).runCalls cs).refresh_token_call).fst
      = Except.error AccessTokenExpired.mk := by
  rw [AccessTokenOnly.runCalls_eq_self]
  rfl

/-- Claim C6: `client_id()` on both conforming providers (`ClientId` and
`AccessTokenOnly`) returns exactly the construction argument, and for
`AccessTokenOnly` it is unchanged by any number of subsequent
`access_token`/`refresh_token` calls. -/
theorem client_id_exact_and_stable (s c t : String) (cs : List Call) :
    (ClientId.new s).client_id = s
    ∧ ((AccessTokenOnly.new c t).runCalls cs).client_id = c := by
  refine ⟨rfl, ?_⟩
  rw [AccessTokenOnly.runCalls_eq_self]
  rfl

/-- Claim C7: end-to-end on `AccessTokenOnly.new "client-123" "tok-abc"`:
`client_id()` is "client-123"; `access_token()` is `Token "tok-abc"`;
`refresh_token()` on the post-call state fails with the fixed error; and
a subsequent `access_token()` on the post-refresh state still returns
`Token "tok-abc"`. -/
theorem accessTokenOnly_end_to_end :
    (AccessTokenOnly.new "client-123" "tok-abc").client_id = "client-123"
    ∧ ((AccessTokenOnly.new "client-123" "tok-abc").access_token_call).fst
        = AccessToken.Token "tok-abc"
    ∧ ((((AccessTokenOnly.new "client-123" "tok-abc").access_token_call).snd).refresh_token_call).fst
        = Except.error AccessTokenExpired.mk
    ∧ (((((AccessTokenOnly.new "client-123" "tok-abc").access_token_call).snd).refresh_token_call).snd).access_token_call
        = (AccessToken.Token "tok-abc", AccessTokenOnly.new "client-123" "tok-abc") :=
  ⟨rfl, rfl, rfl, rfl⟩

/-- Claim C8: `access_token` is a side-effect-free read on
`AccessTokenOnly`: a call leaves the receiver (both fields) unchanged,
and two successive calls on the same instance return equal results. -/
theorem access_token_pure_read (p : AccessTokenOnly) :
    (p.access_token_call).snd = p
    ∧ ((p.access_token_call).snd).client_id = p.client_id
    ∧ ((p.access_token_call).snd).token = p.token
    ∧ (((p.access_token_call).snd).access_token_call).fst
        = (p.access_token_call).fst :=
  ⟨rfl, rfl, rfl, rfl⟩

/-- Claim C9: the `From<String>` conversion for `AccessToken` produces
the `Token` variant for every input string, never `NeedsRefresh`,
including the empty string. -/
theorem fromString_always_token (s : String) :
    AccessToken.fromString s = AccessToken.Token s
    ∧ AccessToken.fromString s ≠ AccessToken.NeedsRefresh
    ∧ AccessToken.fromString "" = AccessToken.Token "" := by
  refine ⟨rfl, ?_, rfl⟩
  simp [AccessToken.fromString]

/-- Claim C10: for every string `s`, `ClientId.new s |>.client_id = s`:
the wrapper round-trips the string with no validation or
normalisation, including the empty string. -/
theorem clientId_roundtrip (s : String) :
    (ClientId.new s).client_id = s
    ∧ (ClientId.new "").client_id = "" :=
  ⟨rfl, rfl⟩

end TrovoAuth
